import Mathlib

/-!
Verification development for the tweakio-sdk core: the per-chat message
rate-limiter (src/src/FIlter/message_filter.py) and the persistence queue
writers (src/DepreciatedFiles__0_1_5_V_of_pypi/sql_lite_storage.py and
src/src/StorageDB/sqlalchemy_storage.py).

Python floats (time.time() values) are modelled as integers — every
comparison the source performs on them is order/subtraction arithmetic,
and every time value in the claims is integral.  Optional[T] is modelled
as Option, dicts as insertion-ordered association lists, asyncio queues as
lists (put appends at the tail).  Python truthiness of Optional[float]
(None and 0.0 are falsy) is modelled explicitly where the source relies on
it (`state.defer_since and ...`, `state.defer_since or now`).
-/

namespace Tweakio

/-- Chat record: models `ChatInterface`; `chat_key` models the string returned
by `_chat_key()`, used as the key of `MessageFilter.StateMap`. -/
structure Chat where
  chat_key : String
deriving DecidableEq, Repr

/-- Message record for the filter: `parent_chat` is the only field
`MessageFilter.apply` reads; `mid` carries the message identity so that
distinct messages are distinct values. -/
structure Msg where
  mid : String
  parent_chat : Chat
deriving DecidableEq, Repr

/-- Per-chat rate state, models `State` in message_filter.py. -/
structure State where
  defer_since : Option Int
  last_seen : Option Int
  window_start : Int
  count : Nat
deriving DecidableEq, Repr

/-- Models `State.reset()` executed at instant `now` (the `time.time()` call
inside the method). -/
def State.reset (_s : State) (now : Int) : State :=
  { defer_since := none, last_seen := none, window_start := now, count := 0 }

/-- The `State(None, None)` default built by `StateMap.setdefault`: the
dataclass default for `window_start` is `time.time()`, i.e. the current
instant. -/
def freshState (now : Int) : State :=
  { defer_since := none, last_seen := none, window_start := now, count := 0 }

/-- Python truthiness of an `Optional[float]`: `None` and `0.0` are falsy. -/
def optTruthy : Option Int → Bool
  | none => false
  | some t => decide (t ≠ 0)

/-- Models the assignment `state.defer_since = state.defer_since or now`:
a falsy (unset or exactly zero) `defer_since` is replaced by `now`. -/
def pyOrTime (ds : Option Int) (now : Int) : Option Int :=
  if optTruthy ds then ds else some now

/-- Models the guard `state.defer_since and (now - state.defer_since) >
self.LimitTime`: truthiness of the Optional[float] conjoined with the strict
comparison. -/
def hardDropCond (ds : Option Int) (now LimitTime : Int) : Bool :=
  match ds with
  | none => false
  | some d => decide (d ≠ 0) && decide (now - d > LimitTime)

/-- The window-expiry step of `apply`: `if now - state.window_start >=
self.Window_Seconds: state.window_start = now; state.count = 0`. -/
def State.windowReset (s : State) (now winSecs : Int) : State :=
  if now - s.window_start ≥ winSecs then
    { s with window_start := now, count := 0 }
  else s

/-- Models `BindData` pushed onto `Defer_queue`. -/
structure BindData where
  chat : Chat
  Messages : List Msg
  seen : Int
deriving DecidableEq, Repr

/-- The class-level shared state of `MessageFilter`: the `StateMap` dict
(insertion-ordered association list) and the `Defer_queue` FIFO
(`put` appends at the tail). -/
structure FilterShared where
  StateMap : List (String × State)
  Defer_queue : List BindData
deriving DecidableEq, Repr

/-- Dict read: first binding for the key, if any. -/
def mapLookup : List (String × State) → String → Option State
  | [], _ => none
  | (k, s) :: rest, key => if k = key then some s else mapLookup rest key

/-- Dict write: replace the binding in place if the key exists, else append
(Python dict insertion-order semantics). -/
def mapSet : List (String × State) → String → State → List (String × State)
  | [], key, s => [(key, s)]
  | (k, s0) :: rest, key, s =>
    if k = key then (key, s) :: rest else (k, s0) :: mapSet rest key s

/-- The configuration fields of `MessageFilter.__init__`
(defaults: LimitTime 3600, Max_Messages_Per_Window 10, Window_Seconds 60). -/
structure MessageFilter where
  LimitTime : Int
  Max_Messages_Per_Window : Int
  Window_Seconds : Int
deriving DecidableEq, Repr

/-- Outcome of one `apply` call: the `MessageFilterError` raise or the
returned list of messages. -/
inductive ApplyOut where
  | raised
  | returns (msgs : List Msg)
deriving DecidableEq, Repr

/-- Models `MessageFilter.apply`.  The pair holds the outcome and the
post-call shared state; on the raise the shared state is untouched because
the check precedes every mutation in the source.  `setdefault` plus
subsequent in-place mutation of the fetched `State` is modelled by writing
the final state for the chat key back into the map. -/
def MessageFilter.apply (f : MessageFilter) (sh : FilterShared) (now : Int)
    (messages : List Msg) : ApplyOut × FilterShared :=
  match messages with
  | [] => (.returns [], sh)
  | m0 :: rest =>
    if ¬ (∀ m ∈ m0 :: rest, m.parent_chat = m0.parent_chat) then
      (.raised, sh)
    else
      let chat := m0.parent_chat
      let chat_key := chat.chat_key
      let state0 := (mapLookup sh.StateMap chat_key).getD (freshState now)
      let state1 := state0.windowReset now f.Window_Seconds
      let batch_size := (m0 :: rest).length
      if hardDropCond state1.defer_since now f.LimitTime then
        (.returns (m0 :: rest),
          { sh with StateMap := mapSet sh.StateMap chat_key (state1.reset now) })
      else if (state1.count : Int) + (batch_size : Int) > f.Max_Messages_Per_Window then
        let state2 := { state1 with defer_since := pyOrTime state1.defer_since now }
        (.returns [],
          { StateMap := mapSet sh.StateMap chat_key state2,
            Defer_queue := sh.Defer_queue ++ [⟨chat, m0 :: rest, now⟩] })
      else
        let state2 := { state1 with count := state1.count + batch_size, last_seen := some now }
        (.returns (m0 :: rest),
          { sh with StateMap := mapSet sh.StateMap chat_key state2 })

/-- Builds `n` pairwise-distinct messages of chat `c`, ids starting at `start`. -/
def mkBatch (c : Chat) (start n : Nat) : List Msg :=
  (List.range n).map (fun i => ⟨toString (start + i), c⟩)

/-- The per-chat state classes named by the spec: fresh means no deferral. -/
def State.isFresh (s : State) : Prop := s.defer_since = none

/-- Deferred: `defer_since` set and the deferral age within the grace
period (non-strict bound, matching the code's strict hard-drop guard). -/
def State.isDeferred (s : State) (now LimitTime : Int) : Prop :=
  ∃ d, s.defer_since = some d ∧ now - d ≤ LimitTime

/-- Stale-deferred: `defer_since` set and the deferral age strictly beyond
the grace period. -/
def State.isStaleDeferred (s : State) (now LimitTime : Int) : Prop :=
  ∃ d, s.defer_since = some d ∧ now - d > LimitTime

/-!
## SQLite storage (src/DepreciatedFiles__0_1_5_V_of_pypi/sql_lite_storage.py)
-/

/-- A row of the `messages` table created by `SQL_Lite_Storage.create_table`:
`data_id` is the primary key; the remaining columns are the tuple built by
`Message.GetTraceObj`. -/
structure SRow where
  data_id : String
  chat : String
  community : String
  jid : String
  message : String
  sender : String
  systime : String
  direction : String
  data_type : String
deriving DecidableEq, Repr

/-- One `INSERT OR IGNORE` of one row: an existing primary key makes the
statement a silent no-op, otherwise the row is appended. -/
def insertOrIgnore (db : List SRow) (r : SRow) : List SRow :=
  if db.any (fun r0 => r0.data_id == r.data_id) then db else db ++ [r]

/-- Models `conn.executemany` with the INSERT OR IGNORE statement: the rows
are processed in order. -/
def insertOrIgnoreMany (db : List SRow) (rows : List SRow) : List SRow :=
  rows.foldl insertOrIgnore db

/-- The fields of the deprecated `Message` dataclass that
`SQL_Lite_Storage._sync_insert_rows` reads and writes: the `data_id` primary
key (non-null by the fetch-side invariant asserted in MessageProcessor) and
the post-hoc `Failed` flag. -/
structure SMsg where
  data_id : String
  Failed : Bool
deriving DecidableEq, Repr

/-- Models `SQL_Lite_Storage._sync_insert_rows`.  The whole body runs inside
one try/except that logs and swallows any exception, so nothing propagates to
the writer loop; `writeOk = false` models a raise from the
executemany/commit step, in which case neither the table nor any `Failed`
flag changes.  On success the rows are inserted with INSERT OR IGNORE, the
ids of the batch that are now present are selected back, and every message
whose `data_id` is absent from that result gets `Failed = True`. -/
def syncInsertRows (writeOk : Bool) (db : List SRow) (rows : List SRow)
    (msgs : List SMsg) : List SRow × List SMsg :=
  if !writeOk then (db, msgs)
  else
    let db2 := insertOrIgnoreMany db rows
    let ids := msgs.map (fun m => m.data_id)
    let inserted := (db2.filter (fun r => ids.contains r.data_id)).map (fun r => r.data_id)
    let msgs2 := msgs.map (fun m =>
      if inserted.contains m.data_id then m else { m with Failed := true })
    (db2, msgs2)

/-- Observable state of `SQL_Lite_Storage` relevant to `enqueue_insert`:
the `_closed` flag, whether a writer task is alive (`_writer_task` not None
and not done), and the queue contents (each `put` enqueues a whole batch). -/
structure SqliteStore where
  closed : Bool
  writer_alive : Bool
  queue : List (List SMsg)
deriving DecidableEq, Repr

/-- Models `SQL_Lite_Storage.enqueue_insert`: `if not msgs or self._closed:
return`, then `start_writer()` (which creates a task only if none is alive),
then `await self.queue.put(msgs)`. -/
def SqliteStore.enqueue_insert (st : SqliteStore) (msgs : List SMsg) : SqliteStore :=
  if msgs.isEmpty || st.closed then st
  else { st with writer_alive := true, queue := st.queue ++ [msgs] }

/-!
## SQLAlchemy storage (src/src/StorageDB/sqlalchemy_storage.py)
-/

/-- Value of a Python string-ish attribute: `None` or a string.  Used to
model the getattr/truthiness dance of `_message_to_model`. -/
inductive PyVal where
  | vnone
  | vstr (s : String)
deriving DecidableEq, Repr

/-- Python truthiness: `None` and the empty string are falsy. -/
def PyVal.truthy : PyVal → Bool
  | .vnone => false
  | .vstr s => !(s == "")

/-- Python `str()` of such a value. -/
def PyVal.pyStr : PyVal → String
  | .vnone => "None"
  | .vstr s => s

/-- Python `a or b`. -/
def PyVal.pyOr (a b : PyVal) : PyVal := if a.truthy then a else b

/-- Models `getattr(obj, attr, default)`: an absent attribute yields the
default. -/
def getattrD (attr : Option PyVal) (dflt : PyVal) : PyVal := attr.getD dflt

/-- The parent-chat attributes `_message_to_model` probes. -/
structure SAChat where
  chatName : Option PyVal
  chat_name : Option PyVal
  chatID : Option PyVal
  chat_id : Option PyVal
deriving DecidableEq, Repr

/-- A message as seen by `SQLAlchemyStorage._message_to_model`: each probed
attribute may be absent (`none`, so the getattr default applies) or hold a
Python value.  `message_id` is declared on `MessageInterface` but the code
defends against its absence, so absence is modelled; `data_id` is not part
of the interface at all. -/
structure SAMessage where
  message_id : Option PyVal
  data_id : Option PyVal
  raw_data : Option PyVal
  data_type : Option PyVal
  direction : Option PyVal
  system_hit_time : Option Int
  parent_chat : Option SAChat
deriving DecidableEq, Repr

/-- The `Message` ORM model row built by `_message_to_model`; `message_id`
is the table's primary key (the duplicate-`message_id` comment and the
IntegrityError handling in `_insert_batch_internally` rely on that). -/
structure ARow where
  message_id : String
  raw_data : String
  data_type : Option String
  direction : Option String
  parent_chat_name : String
  parent_chat_id : String
  system_hit_time : Int
deriving DecidableEq, Repr

/-- Models `SQLAlchemyStorage._message_to_model` field by field, including
Python truthiness (`x or y`, `str(x) if x else ...`) and the getattr
defaults. -/
def message_to_model (msg : SAMessage) : ARow :=
  let message_id := PyVal.pyOr (getattrD msg.message_id .vnone)
                               (getattrD msg.data_id (.vstr "unknown"))
  let raw_data := getattrD msg.raw_data (.vstr "")
  let data_type := getattrD msg.data_type .vnone
  let direction := getattrD msg.direction .vnone
  let system_hit_time := msg.system_hit_time.getD 0
  let parent_chat_name :=
    match msg.parent_chat with
    | none => PyVal.vstr ""
    | some c => PyVal.pyOr (getattrD c.chatName (.vstr ""))
                           (getattrD c.chat_name (.vstr ""))
  let parent_chat_id :=
    match msg.parent_chat with
    | none => PyVal.vstr ""
    | some c => PyVal.pyOr (getattrD c.chatID (.vstr ""))
                           (getattrD c.chat_id (.vstr ""))
  { message_id := message_id.pyStr,
    raw_data := if raw_data.truthy then raw_data.pyStr else "",
    data_type := if data_type.truthy then some data_type.pyStr else none,
    direction := if direction.truthy then some direction.pyStr else none,
    parent_chat_name := parent_chat_name.pyStr,
    parent_chat_id := parent_chat_id.pyStr,
    system_hit_time := system_hit_time }

/-- One single-session insert of the IntegrityError fallback loop: a
duplicate primary key raises IntegrityError, which the loop skips. -/
def aInsertOrIgnore (db : List ARow) (m : ARow) : List ARow :=
  if db.any (fun r => r.message_id == m.message_id) then db else db ++ [m]

/-- Whether a list of primary keys contains a duplicate. -/
def dupKeys : List String → Bool
  | [] => false
  | x :: xs => xs.contains x || dupKeys xs

/-- The commit of `session.add_all(models)` raises IntegrityError exactly
when a primary key is duplicated: within the batch itself or against an
existing row. -/
def bulkConflict (db : List ARow) (models : List ARow) : Bool :=
  dupKeys (models.map (fun m => m.message_id)) ||
    models.any (fun m => db.any (fun r => r.message_id == m.message_id))

/-- Models the insert step of `_insert_batch_internally`: the whole batch is
committed at once; on IntegrityError the session is rolled back and each
model is re-inserted in its own session, with duplicate keys silently
skipped (the `continue` branch). -/
def sqlaInsertModels (db : List ARow) (models : List ARow) : List ARow :=
  if bulkConflict db models then models.foldl aInsertOrIgnore db
  else db ++ models

/-- Models `_insert_batch_internally` end to end: convert every message with
`_message_to_model` (the conversion of this total model never throws, so the
per-message skip-on-exception is a no-op), then insert. -/
def insertBatchInternally (db : List ARow) (msgs : List SAMessage) : List ARow :=
  sqlaInsertModels db (msgs.map message_to_model)

/-- Observable state of `SQLAlchemyStorage` relevant to `enqueue_insert`:
whether `close_db` has run, whether a writer task is alive, and the queue
(each message is `put` individually). -/
structure SqlaStore where
  closed : Bool
  writer_alive : Bool
  queue : List SAMessage
deriving DecidableEq, Repr

/-- Models `SQLAlchemyStorage.enqueue_insert`: `if not msgs: return`, then
each message is put on the queue.  The body contains no closed-check and no
`start_writer` call. -/
def SqlaStore.enqueue_insert (st : SqlaStore) (msgs : List SAMessage) : SqlaStore :=
  if msgs.isEmpty then st
  else { st with queue := st.queue ++ msgs }

/-- One queue item the writer dequeues: `enqueue_insert` puts single
messages, but the loop also accepts lists. -/
inductive WriterItem where
  | one (m : SAMessage)
  | many (ms : List SAMessage)
deriving DecidableEq, Repr

/-- What the awaited `queue.get` produced in one pass of the writer loop:
an item, or a TimeoutError after `flush_interval`. -/
inductive WriterEvent where
  | got (item : WriterItem)
  | timedOut
deriving DecidableEq, Repr

/-- The writer loop's local accumulation state: the in-memory `batch` and
`last_flush`. -/
structure WriterState where
  batch : List SAMessage
  last_flush : Int
deriving DecidableEq, Repr

/-- One pass of the while-body of `SQLAlchemyStorage._writer_loop` at loop
time `t`: extend the batch from the queue item (if any), then flush when the
batch reached `batch_size` or the batch is non-empty and `flush_interval`
elapsed since the last flush. -/
def writerIter (batch_size : Nat) (flush_interval : Int) (ws : WriterState)
    (ev : WriterEvent) (t : Int) (db : List ARow) : WriterState × List ARow :=
  let b := match ev with
    | .got (.one m) => ws.batch ++ [m]
    | .got (.many ms) => ws.batch ++ ms
    | .timedOut => ws.batch
  let should_flush :=
    b.length ≥ batch_size ∨ (b ≠ [] ∧ t - ws.last_flush ≥ flush_interval)
  if should_flush ∧ b ≠ [] then
    (⟨[], t⟩, insertBatchInternally db b)
  else
    ({ ws with batch := b }, db)

/-- Models the effect of `close_db()`'s `self._writer_task.cancel()` on the
writer (Python >= 3.8, per setup.py's `python_requires`): the CancelledError
raised at the awaited `queue.get` (or any other await) is caught neither by
the `except asyncio.TimeoutError` handler nor by the `except Exception`
handler, so it unwinds `_writer_loop` past the post-loop
`if batch: await self._insert_batch_internally(batch)` block.  The
accumulated in-memory batch is therefore discarded and the table is left
unchanged.  The first component reports the batch that was lost. -/
def writerCancelled (ws : WriterState) (db : List ARow) :
    List SAMessage × List ARow :=
  (ws.batch, db)

/-- Models `close_db()`: `_running := False`, the writer task is cancelled
and awaited (see `writerCancelled`), then the engine is disposed.  Returns
the final table contents at the moment the connection reports closed. -/
def closeDbModel (ws : WriterState) (db : List ARow) : List ARow :=
  (writerCancelled ws db).2

/-- What the spec requires of shutdown instead: the in-flight batch is
flushed before the connection is released. -/
def closeDbSpec (ws : WriterState) (db : List ARow) : List ARow :=
  if ws.batch.isEmpty then db else insertBatchInternally db ws.batch

/-- Number of rows of the SQLAlchemy table carrying a given primary key. -/
def countKey (db : List ARow) (k : String) : Nat :=
  (db.filter (fun r => r.message_id == k)).length

/-- A source message together with its post-hoc `Failed` flag, as the
SQLAlchemy writer receives it: the flag lives on the `MessageInterface`
object (as in the deprecated `Message` dataclass) and
`_insert_batch_internally` only ever reads the message. -/
structure SAMsgF where
  msg : SAMessage
  Failed : Bool
deriving DecidableEq, Repr

/-- Models `SQLAlchemyStorage._insert_batch_internally` over flagged source
messages, with the conversion failure mode made explicit: `convFail m =
true` models `_message_to_model(msg=m)` raising, which the surrounding
try/except logs and skips with `continue`, silently dropping that message
from the batch before the insert.  The surviving models are inserted by
`sqlaInsertModels` (bulk commit with the IntegrityError fallback).  The
returned messages are the input ones unchanged: the source contains no
post-insert presence query and no assignment to any message attribute — in
particular it never sets `Failed`. -/
def insertBatchInternallyF (convFail : SAMessage → Bool)
    (db : List ARow) (msgs : List SAMsgF) : List ARow × List SAMsgF :=
  (sqlaInsertModels db
    ((msgs.filter (fun m => !(convFail m.msg))).map (fun m => message_to_model m.msg)),
   msgs)

/-!
## Helper lemmas
-/

theorem mapLookup_mapSet_self (m : List (String × State)) (k : String) (s : State) :
    mapLookup (mapSet m k s) k = some s := by
  induction m with
  | nil => simp [mapSet, mapLookup]
  | cons p rest ih =>
    obtain ⟨k0, s0⟩ := p
    by_cases h : k0 = k
    · simp [mapSet, mapLookup, h]
    · simp [mapSet, mapLookup, h, ih]

theorem windowReset_defer_since (s : State) (now w : Int) :
    (s.windowReset now w).defer_since = s.defer_since := by
  unfold State.windowReset
  split <;> rfl

theorem hardDropCond_eq_false (ds : Option Int) (now LT : Int)
    (h : ∀ d, ds = some d → now - d ≤ LT) : hardDropCond ds now LT = false := by
  cases ds with
  | none => rfl
  | some d =>
    have hle := h d rfl
    simp [hardDropCond, not_lt.mpr hle]

/-!
## Claim theorems
-/

/-- Claim C5 (confirmed): a batch whose messages do not all share one parent
chat makes `apply` raise `MessageFilterError` immediately with no state
mutation: the returned shared state (StateMap and deferred queue) is exactly
the input one, and nothing is delivered or partitioned. -/
theorem apply_cross_chat_raises_no_mutation (f : MessageFilter) (sh : FilterShared)
    (now : Int) (messages : List Msg) (m1 m2 : Msg)
    (h1 : m1 ∈ messages) (h2 : m2 ∈ messages)
    (hne : m1.parent_chat ≠ m2.parent_chat) :
    f.apply sh now messages = (.raised, sh) := by
  cases messages with
  | nil => cases h1
  | cons m0 rest =>
    have hnall : ¬ (∀ m ∈ m0 :: rest, m.parent_chat = m0.parent_chat) := by
      intro hall
      exact hne ((hall m1 h1).trans (hall m2 h2).symm)
    simp only [MessageFilter.apply]
    rw [if_pos hnall]

/-- Witness for C5 at a concrete two-chat batch. -/
theorem apply_cross_chat_raises_no_mutation_w :
    (MessageFilter.mk 3600 10 60).apply ⟨[], []⟩ 0
        [⟨"a", ⟨"c1"⟩⟩, ⟨"b", ⟨"c2"⟩⟩] = (.raised, ⟨[], []⟩) :=
  apply_cross_chat_raises_no_mutation (MessageFilter.mk 3600 10 60) ⟨[], []⟩ 0
    [⟨"a", ⟨"c1"⟩⟩, ⟨"b", ⟨"c2"⟩⟩] ⟨"a", ⟨"c1"⟩⟩ ⟨"b", ⟨"c2"⟩⟩
    (by decide) (by decide) (by decide)

/-- Counterexample to claim C1 as stated.  A denied batch at `t = 0` stamps
`defer_since = 0.0` (Python `None or 0.0` is `0.0`).  At `now = 1` the chat
is not stale-deferred (`1 - 0 ≤ LimitTime`) and a batch of 11 is denied
again; the claim says `defer_since := now` is assigned only if `defer_since`
is not already set, but the code's `state.defer_since = state.defer_since or
now` treats the already-set value `0.0` as falsy and re-stamps it to `1`. -/
theorem apply_overwrites_zero_defer_since :
    ((1 : Int) - 0 ≤ 3600) ∧
    mapLookup ((MessageFilter.mk 3600 10 60).apply ⟨[], []⟩ 0
        (mkBatch ⟨"c"⟩ 0 11)).2.StateMap "c" = some ⟨some 0, none, 0, 0⟩ ∧
    mapLookup ((MessageFilter.mk 3600 10 60).apply
        ((MessageFilter.mk 3600 10 60).apply ⟨[], []⟩ 0 (mkBatch ⟨"c"⟩ 0 11)).2
        1 (mkBatch ⟨"c"⟩ 0 11)).2.StateMap "c" = some ⟨some 1, none, 0, 0⟩ := by
  decide

/-- Claim C2 is the stated intent, and the code contradicts it at
`defer_since = 0.0` (evaluation at the failing input).  A chat deferred at
`t = 0` has `defer_since = 0.0`; at `t = 3601 > LimitTime = 3600` the guard
`state.defer_since and ...` is falsy, so the hard-drop-and-reset path is
skipped: a batch of 5 is delivered through the plain admission branch with
`defer_since` left at `0.0` instead of `None`, and a batch of 11 is deferred
instead of being delivered. -/
theorem hard_drop_skipped_for_zero_defer_since :
    mapLookup ((MessageFilter.mk 3600 10 60).apply ⟨[], []⟩ 0
        (mkBatch ⟨"c"⟩ 0 11)).2.StateMap "c" = some ⟨some 0, none, 0, 0⟩ ∧
    ((MessageFilter.mk 3600 10 60).apply
        ((MessageFilter.mk 3600 10 60).apply ⟨[], []⟩ 0 (mkBatch ⟨"c"⟩ 0 11)).2
        3601 (mkBatch ⟨"c"⟩ 11 5)).1 = .returns (mkBatch ⟨"c"⟩ 11 5) ∧
    mapLookup ((MessageFilter.mk 3600 10 60).apply
        ((MessageFilter.mk 3600 10 60).apply ⟨[], []⟩ 0 (mkBatch ⟨"c"⟩ 0 11)).2
        3601 (mkBatch ⟨"c"⟩ 11 5)).2.StateMap "c" = some ⟨some 0, some 3601, 3601, 5⟩ ∧
    ((MessageFilter.mk 3600 10 60).apply
        ((MessageFilter.mk 3600 10 60).apply ⟨[], []⟩ 0 (mkBatch ⟨"c"⟩ 0 11)).2
        3601 (mkBatch ⟨"c"⟩ 0 11)).1 = .returns [] := by
  decide

/-- Counterexample to claim C4 as stated: at a deferral age exactly equal to
`LimitTime` the code does not take the hard-drop path.  With
`LimitTime = 10`, a chat with `defer_since = 1` checked at `now = 11`
(age `= 10 = LimitTime`, which the claim calls stale-deferred and says must
hard drop and deliver) has an over-limit batch of 4 deferred (`[]` returned)
and keeps `defer_since = 1`: the strict guard `(now - defer_since) >
LimitTime` rejects the boundary. -/
theorem stale_boundary_not_hard_dropped :
    ((11 : Int) - 1 ≥ 10) ∧
    ((MessageFilter.mk 10 3 5).apply ⟨[("c", ⟨some 1, none, 11, 0⟩)], []⟩ 11
        (mkBatch ⟨"c"⟩ 0 4)).1 = .returns [] ∧
    mapLookup ((MessageFilter.mk 10 3 5).apply ⟨[("c", ⟨some 1, none, 11, 0⟩)], []⟩ 11
        (mkBatch ⟨"c"⟩ 0 4)).2.StateMap "c" = some ⟨some 1, none, 11, 0⟩ := by
  decide

/-- Claim C1 (amended): for a non-empty single-chat batch whose state is not
stale-deferred, `apply` first resets the window when `now - window_start ≥
WindowSeconds`; then if `count + len(batch) > MaxMessagesPerWindow` it
stamps `defer_since := now` only when `defer_since` is not already set to a
truthy (nonzero) value — the amendment: an already-set `defer_since` equal
to `0.0` is also re-stamped, by Python `or`-truthiness — pushes exactly one
`{chat, messages, now}` entry on the deferred queue and returns empty;
otherwise it adds `len(batch)` to `count`, sets `last_seen := now`, and
returns the whole batch — never a partial subset.  The final conjuncts are
the claim's concrete examples (Window 60, Max 10): 5 at t=0 then 5 at t=59
delivered; 6 at t=59 after the first 5 deferred. -/
theorem apply_admission_amended :
    (∀ (f : MessageFilter) (sh : FilterShared) (now : Int) (m0 : Msg)
        (rest : List Msg) (state0 state1 : State),
      (∀ m ∈ m0 :: rest, m.parent_chat = m0.parent_chat) →
      state0 = (mapLookup sh.StateMap m0.parent_chat.chat_key).getD (freshState now) →
      state1 = state0.windowReset now f.Window_Seconds →
      (∀ d, state0.defer_since = some d → now - d ≤ f.LimitTime) →
      ((now - state0.window_start ≥ f.Window_Seconds →
          state1.window_start = now ∧ state1.count = 0) ∧
       ((state1.count : Int) + (((m0 :: rest).length : Nat) : Int) > f.Max_Messages_Per_Window →
          f.apply sh now (m0 :: rest) =
            (.returns [],
             ⟨mapSet sh.StateMap m0.parent_chat.chat_key ({ state1 with defer_since := pyOrTime state1.defer_since now }),
              sh.Defer_queue ++ [⟨m0.parent_chat, m0 :: rest, now⟩]⟩)) ∧
       ((state1.count : Int) + (((m0 :: rest).length : Nat) : Int) ≤ f.Max_Messages_Per_Window →
          f.apply sh now (m0 :: rest) =
            (.returns (m0 :: rest),
             ⟨mapSet sh.StateMap m0.parent_chat.chat_key ({ state1 with count := state1.count + (m0 :: rest).length, last_seen := some now }),
              sh.Defer_queue⟩)))) ∧
    ((MessageFilter.mk 3600 10 60).apply
        ((MessageFilter.mk 3600 10 60).apply ⟨[], []⟩ 0 (mkBatch ⟨"c"⟩ 0 5)).2
        59 (mkBatch ⟨"c"⟩ 5 5)).1 = .returns (mkBatch ⟨"c"⟩ 5 5) ∧
    ((MessageFilter.mk 3600 10 60).apply
        ((MessageFilter.mk 3600 10 60).apply ⟨[], []⟩ 0 (mkBatch ⟨"c"⟩ 0 5)).2
        59 (mkBatch ⟨"c"⟩ 5 6)).1 = .returns [] := by
  refine ⟨?_, by decide, by decide⟩
  intro f sh now m0 rest state0 state1 hall hs0 hs1 hnotstale
  subst hs1
  subst hs0
  have hd : hardDropCond
      (((mapLookup sh.StateMap m0.parent_chat.chat_key).getD (freshState now)).windowReset
        now f.Window_Seconds).defer_since now f.LimitTime = false := by
    rw [windowReset_defer_since]
    exact hardDropCond_eq_false _ _ _ hnotstale
  refine ⟨?_, ?_, ?_⟩
  · intro hw
    unfold State.windowReset
    rw [if_pos hw]
    exact ⟨rfl, rfl⟩
  · intro hgt
    simp only [MessageFilter.apply]
    rw [if_neg (not_not_intro hall), hd, if_neg Bool.false_ne_true, if_pos hgt]
  · intro hle
    simp only [MessageFilter.apply]
    rw [if_neg (not_not_intro hall), hd, if_neg Bool.false_ne_true,
      if_neg (not_lt.mpr hle)]

/-- Witness for C1 (amended) at a concrete admission and a concrete denial:
the state after 5 messages at t=0 (count 5), checked at t=59. -/
theorem apply_admission_amended_w :
    (MessageFilter.mk 3600 10 60).apply ⟨[("c", ⟨none, some 0, 0, 5⟩)], []⟩ 59
        [⟨"a", ⟨"c"⟩⟩] =
      (.returns [⟨"a", ⟨"c"⟩⟩],
       ⟨[("c", ⟨none, some 59, 0, 6⟩)], []⟩) ∧
    (MessageFilter.mk 3600 10 60).apply ⟨[("c", ⟨none, some 0, 0, 5⟩)], []⟩ 59
        (mkBatch ⟨"c"⟩ 0 6) =
      (.returns [],
       ⟨[("c", ⟨some 59, some 0, 0, 5⟩)], [⟨⟨"c"⟩, mkBatch ⟨"c"⟩ 0 6, 59⟩]⟩) := by
  constructor
  · have h := (apply_admission_amended.1 (MessageFilter.mk 3600 10 60)
      ⟨[("c", ⟨none, some 0, 0, 5⟩)], []⟩ 59 ⟨"a", ⟨"c"⟩⟩ []
      ⟨none, some 0, 0, 5⟩ ⟨none, some 0, 0, 5⟩
      (by decide) (by decide) (by decide)
      (by intro d hd; cases hd)).2.2 (by decide)
    exact h
  · have h := (apply_admission_amended.1 (MessageFilter.mk 3600 10 60)
      ⟨[("c", ⟨none, some 0, 0, 5⟩)], []⟩ 59 ⟨"0", ⟨"c"⟩⟩
      [⟨"1", ⟨"c"⟩⟩, ⟨"2", ⟨"c"⟩⟩, ⟨"3", ⟨"c"⟩⟩, ⟨"4", ⟨"c"⟩⟩, ⟨"5", ⟨"c"⟩⟩]
      ⟨none, some 0, 0, 5⟩ ⟨none, some 0, 0, 5⟩
      (by decide) (by decide) (by decide)
      (by intro d hd; cases hd)).2.1 (by decide)
    exact h

/-- Claim C4 (amended): at every check a state is in exactly one of three
classes — fresh (`defer_since` unset), deferred (set, age ≤ LimitTime), or
stale-deferred (set, age > LimitTime); the amendments forced by the code: the
stale boundary is strict (age exactly equal to LimitTime is still deferred,
not stale), and the hard-drop-and-reset path is forced for a stale-deferred
chat whose `defer_since` is truthy (nonzero). -/
theorem state_trichotomy_hard_drop_amended :
    (∀ (s : State) (now LT : Int),
      (s.isFresh ∨ s.isDeferred now LT ∨ s.isStaleDeferred now LT) ∧
      ¬ (s.isFresh ∧ s.isDeferred now LT) ∧
      ¬ (s.isFresh ∧ s.isStaleDeferred now LT) ∧
      ¬ (s.isDeferred now LT ∧ s.isStaleDeferred now LT)) ∧
    (∀ (f : MessageFilter) (sh : FilterShared) (now : Int) (m0 : Msg)
        (rest : List Msg) (state0 : State) (d : Int),
      (∀ m ∈ m0 :: rest, m.parent_chat = m0.parent_chat) →
      state0 = (mapLookup sh.StateMap m0.parent_chat.chat_key).getD (freshState now) →
      state0.defer_since = some d → d ≠ 0 → now - d > f.LimitTime →
      f.apply sh now (m0 :: rest) =
        (.returns (m0 :: rest),
         ⟨mapSet sh.StateMap m0.parent_chat.chat_key (freshState now), sh.Defer_queue⟩)) := by
  constructor
  · intro s now LT
    refine ⟨?_, ?_, ?_, ?_⟩
    · cases hds : s.defer_since with
      | none => exact Or.inl hds
      | some d =>
        rcases le_or_lt (now - d) LT with h | h
        · exact Or.inr (Or.inl ⟨d, hds, h⟩)
        · exact Or.inr (Or.inr ⟨d, hds, h⟩)
    · rintro ⟨h1, d, h2, _⟩
      rw [h1] at h2
      cases h2
    · rintro ⟨h1, d, h2, _⟩
      rw [h1] at h2
      cases h2
    · rintro ⟨⟨d1, h1, hle⟩, d2, h2, hgt⟩
      rw [h1] at h2
      obtain rfl := Option.some.inj h2
      exact absurd hgt (not_lt.mpr hle)
  · intro f sh now m0 rest state0 d hall hs0 hds hdz hage
    subst hs0
    have hd : hardDropCond
        (((mapLookup sh.StateMap m0.parent_chat.chat_key).getD (freshState now)).windowReset
          now f.Window_Seconds).defer_since now f.LimitTime = true := by
      rw [windowReset_defer_since, hds]
      simp [hardDropCond, hdz, hage]
    simp only [MessageFilter.apply]
    rw [if_neg (not_not_intro hall), hd, if_pos rfl]
    rfl

/-- Witness for C4 (amended): a chat deferred since t=1 checked at t=12 with
LimitTime 10 hard-drops: the batch comes back whole and the state resets. -/
theorem state_trichotomy_hard_drop_amended_w :
    (MessageFilter.mk 10 3 5).apply ⟨[("c", ⟨some 1, none, 12, 0⟩)], []⟩ 12
        [⟨"a", ⟨"c"⟩⟩] =
      (.returns [⟨"a", ⟨"c"⟩⟩], ⟨[("c", freshState 12)], []⟩) :=
  state_trichotomy_hard_drop_amended.2 (MessageFilter.mk 10 3 5)
    ⟨[("c", ⟨some 1, none, 12, 0⟩)], []⟩ 12 ⟨"a", ⟨"c"⟩⟩ []
    ⟨some 1, none, 12, 0⟩ 1
    (by decide) (by decide) (by decide) (by decide) (by decide)

/-- Claim C9 (confirmed): the deliver branch writes back a state differing
from the (window-reset) state only in `count` and `last_seen`, leaves the
deferred queue alone and in particular never clears `defer_since`.  The
closed conjuncts replay the claim's scenario (LimitTime 100, Max 3,
Window 5): denial at t=1 sets `defer_since = 1`; at t=7 the window has
reset and an under-limit batch is delivered while `defer_since` stays 1;
at t=102 the deferral age 101 exceeds LimitTime and the call takes the
hard-drop reset path even though deliveries happened in between. -/
theorem deliver_branch_frame :
    (∀ (f : MessageFilter) (sh : FilterShared) (now : Int) (m0 : Msg)
        (rest : List Msg) (state0 state1 : State),
      (∀ m ∈ m0 :: rest, m.parent_chat = m0.parent_chat) →
      state0 = (mapLookup sh.StateMap m0.parent_chat.chat_key).getD (freshState now) →
      state1 = state0.windowReset now f.Window_Seconds →
      hardDropCond state1.defer_since now f.LimitTime = false →
      (state1.count : Int) + (((m0 :: rest).length : Nat) : Int) ≤ f.Max_Messages_Per_Window →
      (f.apply sh now (m0 :: rest) =
        (.returns (m0 :: rest),
         ⟨mapSet sh.StateMap m0.parent_chat.chat_key ({ state1 with count := state1.count + (m0 :: rest).length, last_seen := some now }),
          sh.Defer_queue⟩) ∧
       ({ state1 with count := state1.count + (m0 :: rest).length, last_seen := some now }).defer_since
         = state0.defer_since)) ∧
    (mapLookup ((MessageFilter.mk 100 3 5).apply
        ((MessageFilter.mk 100 3 5).apply ⟨[], []⟩ 0 (mkBatch ⟨"c"⟩ 0 3)).2
        1 (mkBatch ⟨"c"⟩ 3 2)).2.StateMap "c" = some ⟨some 1, some 0, 0, 3⟩) ∧
    ((MessageFilter.mk 100 3 5).apply
        ((MessageFilter.mk 100 3 5).apply
          ((MessageFilter.mk 100 3 5).apply ⟨[], []⟩ 0 (mkBatch ⟨"c"⟩ 0 3)).2
          1 (mkBatch ⟨"c"⟩ 3 2)).2
        7 (mkBatch ⟨"c"⟩ 5 2)).1 = .returns (mkBatch ⟨"c"⟩ 5 2) ∧
    (mapLookup ((MessageFilter.mk 100 3 5).apply
        ((MessageFilter.mk 100 3 5).apply
          ((MessageFilter.mk 100 3 5).apply ⟨[], []⟩ 0 (mkBatch ⟨"c"⟩ 0 3)).2
          1 (mkBatch ⟨"c"⟩ 3 2)).2
        7 (mkBatch ⟨"c"⟩ 5 2)).2.StateMap "c" = some ⟨some 1, some 7, 7, 2⟩) ∧
    ((MessageFilter.mk 100 3 5).apply
        ((MessageFilter.mk 100 3 5).apply
          ((MessageFilter.mk 100 3 5).apply
            ((MessageFilter.mk 100 3 5).apply ⟨[], []⟩ 0 (mkBatch ⟨"c"⟩ 0 3)).2
            1 (mkBatch ⟨"c"⟩ 3 2)).2
          7 (mkBatch ⟨"c"⟩ 5 2)).2
        102 (mkBatch ⟨"c"⟩ 7 1)) =
      (.returns (mkBatch ⟨"c"⟩ 7 1), ⟨[("c", freshState 102)], [⟨⟨"c"⟩, mkBatch ⟨"c"⟩ 3 2, 1⟩]⟩) := by
  refine ⟨?_, by decide, by decide, by decide, by decide⟩
  intro f sh now m0 rest state0 state1 hall hs0 hs1 hnodrop hfit
  subst hs1
  subst hs0
  refine ⟨?_, windowReset_defer_since _ _ _⟩
  simp only [MessageFilter.apply]
  rw [if_neg (not_not_intro hall), hnodrop, if_neg Bool.false_ne_true,
    if_neg (not_lt.mpr hfit)]

/-- Witness for C9: a deferred-since-1 chat (age 6 < LimitTime 100) with a
reset window delivers a batch of 2 and keeps `defer_since = 1`. -/
theorem deliver_branch_frame_w :
    (MessageFilter.mk 100 3 5).apply ⟨[("c", ⟨some 1, some 0, 0, 3⟩)], []⟩ 7
        [⟨"a", ⟨"c"⟩⟩, ⟨"b", ⟨"c"⟩⟩] =
      (.returns [⟨"a", ⟨"c"⟩⟩, ⟨"b", ⟨"c"⟩⟩],
       ⟨[("c", ⟨some 1, some 7, 7, 2⟩)], []⟩) :=
  ((deliver_branch_frame.1 (MessageFilter.mk 100 3 5)
      ⟨[("c", ⟨some 1, some 0, 0, 3⟩)], []⟩ 7 ⟨"a", ⟨"c"⟩⟩ [⟨"b", ⟨"c"⟩⟩]
      ⟨some 1, some 0, 0, 3⟩ ⟨some 1, some 0, 7, 0⟩
      (by decide) (by decide) (by decide) (by decide) (by decide)).1)

/-!
## Storage lemmas and claim theorems
-/

theorem countKey_append (db1 db2 : List ARow) (k : String) :
    countKey (db1 ++ db2) k = countKey db1 k + countKey db2 k := by
  simp [countKey, List.filter_append]

theorem countKey_aInsertOrIgnore (db : List ARow) (m : ARow) (k : String)
    (h : countKey db k ≤ 1) : countKey (aInsertOrIgnore db m) k ≤ 1 := by
  unfold aInsertOrIgnore
  split
  · exact h
  · rename_i hab
    rw [countKey_append]
    by_cases hk : m.message_id = k
    · have hzero : countKey db k = 0 := by
        rw [countKey, List.length_eq_zero, List.filter_eq_nil_iff]
        intro r hr
        have := (List.any_eq_false.mp (eq_false_of_ne_true hab)) r hr
        simp only [hk] at this
        exact this
      have hone : countKey [m] k ≤ 1 := by
        simp [countKey, hk]
      omega
    · have hz : countKey [m] k = 0 := by
        simp [countKey, hk]
      omega

theorem countKey_foldl (models : List ARow) (db : List ARow) (k : String)
    (h : countKey db k ≤ 1) :
    countKey (models.foldl aInsertOrIgnore db) k ≤ 1 := by
  induction models generalizing db with
  | nil => exact h
  | cons m ms ih => exact ih _ (countKey_aInsertOrIgnore db m k h)

theorem foldl_aInsert_of_no_conflict (models : List ARow) (db : List ARow)
    (h : bulkConflict db models = false) :
    models.foldl aInsertOrIgnore db = db ++ models := by
  induction models generalizing db with
  | nil => simp
  | cons m ms ih =>
    have hparts := h
    unfold bulkConflict at hparts
    simp only [List.map_cons, dupKeys, List.any_cons, Bool.or_eq_false_iff] at hparts
    obtain ⟨⟨hc1, hc2⟩, hc3, hc4⟩ := hparts
    have hstep : aInsertOrIgnore db m = db ++ [m] := by
      unfold aInsertOrIgnore
      rw [if_neg (by rw [hc3]; exact Bool.false_ne_true)]
    have hnext : bulkConflict (db ++ [m]) ms = false := by
      unfold bulkConflict
      rw [Bool.or_eq_false_iff]
      refine ⟨hc2, ?_⟩
      rw [List.any_eq_false]
      intro x hx
      have h1 : db.any (fun r => r.message_id == x.message_id) = false :=
        eq_false_of_ne_true ((List.any_eq_false.mp hc4) x hx)
      have h2 : (m.message_id == x.message_id) = false := by
        rw [List.contains_eq_any_beq] at hc1
        have hxx := (List.any_eq_false.mp hc1) x.message_id
          (List.mem_map_of_mem _ hx)
        simpa using hxx
      rw [List.any_append]
      simp [h1, h2]
    rw [List.foldl_cons, hstep, ih (db ++ [m]) hnext]
    simp

theorem sqlaInsertModels_eq_foldl (db : List ARow) (models : List ARow) :
    sqlaInsertModels db models = models.foldl aInsertOrIgnore db := by
  unfold sqlaInsertModels
  split
  · rfl
  · rename_i hcf
    exact (foldl_aInsert_of_no_conflict models db
      (eq_false_of_ne_true hcf)).symm

/-- Claim C3 (confirmed): inserting the same message id twice through the
persistence path — in one batch or across two batches — leaves exactly one
persisted row; the second insert is silently skipped and no field of the
existing row is overwritten (the survivor is the first row `r`/`a`, not the
later `s`/`b`).  Shown both for the SQLite writer's INSERT OR IGNORE and for
the SQLAlchemy writer's IntegrityError-rollback-and-skip fallback; in the
model neither path raises, matching the sources, which treat the duplicate
key as a non-error. -/
theorem insert_same_id_twice_idempotent (db : List SRow) (adb : List ARow)
    (r s : SRow) (a b : ARow)
    (hrs : s.data_id = r.data_id) (hab : b.message_id = a.message_id)
    (hfresh : db.any (fun r0 => r0.data_id == r.data_id) = false)
    (hafresh : adb.any (fun r0 => r0.message_id == a.message_id) = false) :
    insertOrIgnoreMany db [r, s] = db ++ [r] ∧
    insertOrIgnoreMany (insertOrIgnoreMany db [r]) [s] = db ++ [r] ∧
    (insertOrIgnoreMany db [r, s]).filter (fun r0 => r0.data_id == r.data_id) = [r] ∧
    sqlaInsertModels adb [a, b] = adb ++ [a] ∧
    sqlaInsertModels (sqlaInsertModels adb [a]) [b] = adb ++ [a] := by
  have h1 : insertOrIgnore db r = db ++ [r] := by
    unfold insertOrIgnore
    rw [if_neg (by rw [hfresh]; exact Bool.false_ne_true)]
  have h2 : insertOrIgnore (db ++ [r]) s = db ++ [r] := by
    unfold insertOrIgnore
    rw [if_pos (by rw [List.any_append]; simp [hrs])]
  have c1 : insertOrIgnoreMany db [r, s] = db ++ [r] := by
    simp only [insertOrIgnoreMany, List.foldl_cons, List.foldl_nil]
    rw [h1, h2]
  have ha1 : aInsertOrIgnore adb a = adb ++ [a] := by
    unfold aInsertOrIgnore
    rw [if_neg (by rw [hafresh]; exact Bool.false_ne_true)]
  have ha2 : aInsertOrIgnore (adb ++ [a]) b = adb ++ [a] := by
    unfold aInsertOrIgnore
    rw [if_pos (by rw [List.any_append]; simp [hab])]
  refine ⟨c1, ?_, ?_, ?_, ?_⟩
  · simp only [insertOrIgnoreMany, List.foldl_cons, List.foldl_nil]
    rw [h1, h2]
  · rw [c1, List.filter_append]
    have hdbf : db.filter (fun r0 => r0.data_id == r.data_id) = [] :=
      List.filter_eq_nil_iff.mpr (List.any_eq_false.mp hfresh)
    rw [hdbf]
    simp
  · simp only [sqlaInsertModels_eq_foldl, List.foldl_cons, List.foldl_nil]
    rw [ha1, ha2]
  · simp only [sqlaInsertModels_eq_foldl, List.foldl_cons, List.foldl_nil]
    rw [ha1, ha2]

/-- Witness for C3: two rows sharing the primary key "id1" but with
different payloads ("hello" vs "world"); only the first survives, in the
same batch and across batches, on both backends. -/
theorem insert_same_id_twice_idempotent_w :
    insertOrIgnoreMany [] [⟨"id1", "A", "f", "j", "hello", "s", "0", "in", "t"⟩,
        ⟨"id1", "A", "f", "j", "world", "s", "1", "out", "t"⟩]
      = [⟨"id1", "A", "f", "j", "hello", "s", "0", "in", "t"⟩] ∧
    sqlaInsertModels [] [⟨"id1", "hello", none, none, "A", "B", 0⟩,
        ⟨"id1", "world", none, none, "A", "B", 1⟩]
      = [⟨"id1", "hello", none, none, "A", "B", 0⟩] := by
  have h := insert_same_id_twice_idempotent [] []
    ⟨"id1", "A", "f", "j", "hello", "s", "0", "in", "t"⟩
    ⟨"id1", "A", "f", "j", "world", "s", "1", "out", "t"⟩
    ⟨"id1", "hello", none, none, "A", "B", 0⟩
    ⟨"id1", "world", none, none, "A", "B", 1⟩
    rfl rfl rfl rfl
  exact ⟨h.1, h.2.2.2.1⟩

/-- Counterexample to claim C6 as stated: the SQLAlchemy writer
(`_insert_batch_internally`, one of the claim's cited implementations)
performs no post-insert presence query and never sets `Failed`.  Concretely,
a batch of two messages where the first one's `_message_to_model` conversion
raises (the try/except logs and skips it) completes its flush normally, the
skipped id "b1" is absent from the post-insert table, and yet every source
message still has `Failed = false` — the claim requires the absent id's
source message to be marked. -/
theorem sqla_insert_absent_id_unmarked :
    insertBatchInternallyF (fun m => m.message_id == some (.vstr "b1")) []
        [⟨⟨some (.vstr "b1"), none, none, none, none, some 0, none⟩, false⟩,
         ⟨⟨some (.vstr "g1"), none, none, none, none, some 0, none⟩, false⟩]
      = ([⟨"g1", "", none, none, "", "", 0⟩],
         [⟨⟨some (.vstr "b1"), none, none, none, none, some 0, none⟩, false⟩,
          ⟨⟨some (.vstr "g1"), none, none, none, none, some 0, none⟩, false⟩]) ∧
    ((insertBatchInternallyF (fun m => m.message_id == some (.vstr "b1")) []
        [⟨⟨some (.vstr "b1"), none, none, none, none, some 0, none⟩, false⟩,
         ⟨⟨some (.vstr "g1"), none, none, none, none, some 0, none⟩, false⟩]).1.map
        (fun r => r.message_id)).contains "b1" = false ∧
    (∀ mf ∈ (insertBatchInternallyF (fun m => m.message_id == some (.vstr "b1")) []
        [⟨⟨some (.vstr "b1"), none, none, none, none, some 0, none⟩, false⟩,
         ⟨⟨some (.vstr "g1"), none, none, none, none, some 0, none⟩, false⟩]).2,
      mf.Failed = false) := by
  decide

/-- Claim C6 (amended): after a completed batch insert the SQLite writer
`_sync_insert_rows` queries which of the batch's message ids are present in
the durable store and sets `Failed := true` exactly on the source messages
whose id is absent from that result, without raising (the entire body is
wrapped in a try/except that logs and swallows), and a storage-write
failure during the flush marks no source message.  The SQLAlchemy writer
`_insert_batch_internally`, by contrast, implements no marking at all: it
performs no post-insert presence query and never sets `Failed` on any path,
so its source messages come back exactly as they went in even when a
message was dropped by the conversion try/except and its id is absent from
the store afterwards. -/
theorem writer_failed_marking_amended (db rows : List SRow) (msgs : List SMsg) :
    (syncInsertRows true db rows msgs).1 = insertOrIgnoreMany db rows ∧
    (syncInsertRows true db rows msgs).2 = msgs.map (fun m =>
      if ((insertOrIgnoreMany db rows).map (fun r => r.data_id)).contains m.data_id
      then m else { m with Failed := true }) ∧
    syncInsertRows false db rows msgs = (db, msgs) ∧
    (∀ (convFail : SAMessage → Bool) (adb : List ARow) (amsgs : List SAMsgF),
      (insertBatchInternallyF convFail adb amsgs).2 = amsgs) := by
  refine ⟨rfl, ?_, rfl, fun _ _ _ => rfl⟩
  show msgs.map _ = msgs.map _
  apply List.map_congr_left
  intro m hm
  have hmem : m.data_id ∈ msgs.map (fun m => m.data_id) :=
    List.mem_map_of_mem _ hm
  have hb : (((insertOrIgnoreMany db rows).filter
        (fun r => (msgs.map (fun m => m.data_id)).contains r.data_id)).map
        (fun r => r.data_id)).contains m.data_id
      = ((insertOrIgnoreMany db rows).map (fun r => r.data_id)).contains m.data_id := by
    apply Bool.eq_iff_iff.mpr
    constructor
    · intro h
      have h1 : m.data_id ∈ ((insertOrIgnoreMany db rows).filter
          (fun r => (msgs.map (fun m => m.data_id)).contains r.data_id)).map
          (fun r => r.data_id) := by simpa using h
      obtain ⟨r0, hr0, hid⟩ := List.mem_map.mp h1
      have : m.data_id ∈ (insertOrIgnoreMany db rows).map (fun r => r.data_id) :=
        List.mem_map.mpr ⟨r0, (List.mem_filter.mp hr0).1, hid⟩
      simpa using this
    · intro h
      have h1 : m.data_id ∈ (insertOrIgnoreMany db rows).map (fun r => r.data_id) := by
        simpa using h
      obtain ⟨r0, hr0, hid⟩ := List.mem_map.mp h1
      have : m.data_id ∈ ((insertOrIgnoreMany db rows).filter
          (fun r => (msgs.map (fun m => m.data_id)).contains r.data_id)).map
          (fun r => r.data_id) := by
        refine List.mem_map.mpr ⟨r0, List.mem_filter.mpr ⟨hr0, ?_⟩, hid⟩
        rw [hid]
        simp [hmem]
      simpa using this
  rw [hb]

/-- Claim C7 states the intent and the code contradicts it: evaluation at
the failing input.  With batch_size 50 and flush_interval 2, the writer
takes one enqueued message into its in-memory batch without flushing
(1 < 50 and no interval elapsed); `close_db()` then cancels the writer while
it awaits `queue.get`, and on Python >= 3.8 the CancelledError is caught by
neither `except asyncio.TimeoutError` nor `except Exception`, so it unwinds
`_writer_loop` past the post-loop `if batch: ... _insert_batch_internally`
block (the code's own "Flush remaining messages on shutdown" comment):
`close_db` returns with the table still empty, whereas the drain the claim
(and that comment) require would have persisted the row. -/
theorem close_db_drops_inflight_batch :
    writerIter 50 2 ⟨[], 0⟩
        (.got (.one ⟨some (.vstr "m1"), none, some (.vstr "hi"), none, none, some 0, none⟩)) 0 []
      = (⟨[⟨some (.vstr "m1"), none, some (.vstr "hi"), none, none, some 0, none⟩], 0⟩, []) ∧
    closeDbModel ⟨[⟨some (.vstr "m1"), none, some (.vstr "hi"), none, none, some 0, none⟩], 0⟩ []
      = [] ∧
    closeDbSpec ⟨[⟨some (.vstr "m1"), none, some (.vstr "hi"), none, none, some 0, none⟩], 0⟩ []
      = [⟨"m1", "hi", none, none, "", "", 0⟩] := by
  decide

/-- Counterexample to claim C8 as stated: `SQLAlchemyStorage.enqueue_insert`
has no closed-check and no lazy writer start.  On a closed store a non-empty
batch is still enqueued (the claim says nothing is enqueued), and on an open
store with no writer running nothing starts the writer. -/
theorem sqla_enqueue_after_close_enqueues :
    SqlaStore.enqueue_insert ⟨true, false, []⟩
        [⟨some (.vstr "m1"), none, none, none, none, some 0, none⟩]
      = ⟨true, false, [⟨some (.vstr "m1"), none, none, none, none, some 0, none⟩]⟩ ∧
    (SqlaStore.enqueue_insert ⟨true, false, []⟩
        [⟨some (.vstr "m1"), none, none, none, none, some 0, none⟩]).queue ≠ [] ∧
    (SqlaStore.enqueue_insert ⟨false, false, []⟩
        [⟨some (.vstr "m1"), none, none, none, none, some 0, none⟩]).writer_alive = false := by
  decide

/-- Claim C8 (amended): the SQLite `enqueue_insert` behaves as claimed —
no-op on empty input or a closed store, otherwise it lazily ensures the
writer task is alive and puts the batch (as one item) on the queue.  The
SQLAlchemy `enqueue_insert` no-ops only on empty input: it enqueues each
message individually, never starts the writer (start_writer must be called
explicitly, as the context manager does), and ignores whether the store has
been closed. -/
theorem enqueue_insert_amended :
    (∀ (st : SqliteStore) (msgs : List SMsg),
      ((msgs.isEmpty || st.closed) = true → st.enqueue_insert msgs = st) ∧
      ((msgs.isEmpty || st.closed) = false →
        st.enqueue_insert msgs = ⟨st.closed, true, st.queue ++ [msgs]⟩)) ∧
    (∀ (st : SqlaStore) (msgs : List SAMessage),
      (msgs.isEmpty = true → st.enqueue_insert msgs = st) ∧
      (msgs.isEmpty = false →
        st.enqueue_insert msgs = ⟨st.closed, st.writer_alive, st.queue ++ msgs⟩)) := by
  constructor
  · intro st msgs
    constructor
    · intro h
      unfold SqliteStore.enqueue_insert
      rw [if_pos h]
    · intro h
      unfold SqliteStore.enqueue_insert
      rw [if_neg (by rw [h]; exact Bool.false_ne_true)]
  · intro st msgs
    constructor
    · intro h
      unfold SqlaStore.enqueue_insert
      rw [if_pos h]
    · intro h
      unfold SqlaStore.enqueue_insert
      rw [if_neg (by rw [h]; exact Bool.false_ne_true)]

/-- Witness for C8 (amended): a closed SQLite store drops the batch; an open
one enqueues it and wakes the writer; the SQLAlchemy store enqueues even
when closed and leaves the writer flag untouched. -/
theorem enqueue_insert_amended_w :
    SqliteStore.enqueue_insert ⟨true, false, []⟩ [⟨"id1", false⟩] = ⟨true, false, []⟩ ∧
    SqliteStore.enqueue_insert ⟨false, false, []⟩ [⟨"id1", false⟩]
      = ⟨false, true, [[⟨"id1", false⟩]]⟩ ∧
    SqlaStore.enqueue_insert ⟨true, false, []⟩
        [⟨some (.vstr "m2"), none, none, none, none, some 0, none⟩]
      = ⟨true, false, [⟨some (.vstr "m2"), none, none, none, none, some 0, none⟩]⟩ := by
  refine ⟨?_, ?_, ?_⟩
  · exact (enqueue_insert_amended.1 ⟨true, false, []⟩ [⟨"id1", false⟩]).1 (by decide)
  · exact (enqueue_insert_amended.1 ⟨false, false, []⟩ [⟨"id1", false⟩]).2 (by decide)
  · exact (enqueue_insert_amended.2 ⟨true, false, []⟩
      [⟨some (.vstr "m2"), none, none, none, none, some 0, none⟩]).2 (by decide)

/-- Counterexample to claim C10 as stated: a message whose `message_id`
attribute is present but `None` and whose `data_id` attribute is present but
`None` has neither a truthy `message_id` nor a truthy `data_id`, yet its
primary key becomes `str(None) = "None"`, not "unknown": the literal
"unknown" is only the getattr *default*, used when the `data_id` attribute
is absent, not whenever `data_id` is falsy. -/
theorem idless_message_key_not_unknown :
    PyVal.truthy (getattrD (some .vnone) .vnone) = false ∧
    PyVal.truthy (getattrD (some .vnone) (.vstr "unknown")) = false ∧
    (message_to_model ⟨some .vnone, some .vnone, none, none, none, none, none⟩).message_id
      = "None" ∧
    (message_to_model ⟨some .vnone, some .vnone, none, none, none, none, none⟩).message_id
      ≠ "unknown" := by
  decide

/-- Claim C10 (amended): the model builder substitutes "unknown" as the
primary key exactly for messages with no truthy `message_id` and no
`data_id` attribute at all; when `data_id` is present but falsy the falsy
value is stringified instead ("None" for None, "" for the empty string).
Every message of the same id-less shape maps to the same key, and under the
duplicate-ignore insert semantics at most one row per key is ever persisted,
so later ones are silently dropped. -/
theorem idless_message_key_amended :
    (∀ (msg : SAMessage),
      PyVal.truthy (getattrD msg.message_id .vnone) = false →
      ((msg.data_id = none → (message_to_model msg).message_id = "unknown") ∧
       (∀ v, msg.data_id = some v → v.truthy = false →
         (message_to_model msg).message_id = v.pyStr))) ∧
    (∀ (db models : List ARow) (k : String),
      countKey db k ≤ 1 → countKey (sqlaInsertModels db models) k ≤ 1) := by
  constructor
  · intro msg hfalsy
    constructor
    · intro hnone
      unfold message_to_model PyVal.pyOr
      rw [if_neg (by rw [hfalsy]; exact Bool.false_ne_true)]
      rw [hnone]
      rfl
    · intro v hv hvf
      unfold message_to_model PyVal.pyOr
      rw [if_neg (by rw [hfalsy]; exact Bool.false_ne_true)]
      rw [hv]
      rfl
  · intro db models k h
    rw [sqlaInsertModels_eq_foldl]
    exact countKey_foldl models db k h

/-- Witness for C10 (amended): two distinct id-less messages (falsy
`message_id`, absent `data_id`) both map to the key "unknown"; inserting
both keeps a single "unknown" row. -/
theorem idless_message_key_amended_w :
    (message_to_model ⟨some .vnone, none, some (.vstr "x"), none, none, some 0, none⟩).message_id
      = "unknown" ∧
    (message_to_model ⟨none, none, some (.vstr "y"), none, none, some 1, none⟩).message_id
      = "unknown" ∧
    countKey (sqlaInsertModels []
      ([⟨some .vnone, none, some (.vstr "x"), none, none, some 0, none⟩,
        ⟨none, none, some (.vstr "y"), none, none, some 1, none⟩].map message_to_model))
      "unknown" ≤ 1 := by
  refine ⟨?_, ?_, ?_⟩
  · exact ((idless_message_key_amended.1
      ⟨some .vnone, none, some (.vstr "x"), none, none, some 0, none⟩ (by decide)).1 rfl)
  · exact ((idless_message_key_amended.1
      ⟨none, none, some (.vstr "y"), none, none, some 1, none⟩ (by decide)).1 rfl)
  · exact idless_message_key_amended.2 []
      ([⟨some .vnone, none, some (.vstr "x"), none, none, some 0, none⟩,
        ⟨none, none, some (.vstr "y"), none, none, some 1, none⟩].map message_to_model)
      "unknown" (by decide)

end Tweakio
